import Mathlib

/-!
Verification development for the astroparty game server core.

Shallow embedding of the authoritative server-side simulation:
`packages/server/src/game/{GameManager,PhysicsEngine,PowerUpManager,InputHandler}.ts`
and the shared constants in `packages/shared/src/constants.ts` /
`packages/shared/src/PowerUpTypes.ts` (the latter quoted verbatim in
`packages/map-editor/README.md`).

Modelling conventions:
* JavaScript numbers are modelled as exact rationals (`ℚ`); timestamps in
  milliseconds as integers (`ℤ`).
* The source compares Euclidean distances (`Math.sqrt(dx*dx+dy*dy) < R`);
  the embedding compares squared distances (`dx^2+dy^2 < R*R`), which is
  equivalent since both sides are nonnegative.  Irrational constants
  (`SHIP_MAX_RADIUS = sqrt(412.36)`, `Math.PI`) are either carried as a
  squared rational (`SHIP_MAX_RADIUS_SQ`) or passed as an explicit rational
  parameter (`radius`, `twoPi`, `piv`) with rational bounds.
* `Math.cos` / `Math.sin` are passed as opaque function parameters
  `cosF sinF : ℚ → ℚ`.
* JavaScript `Map` iteration follows insertion order; player maps are
  modelled as `List Player` in insertion order.
* Write-only presentation fields (`color`, pickup icons) and the id strings
  generated from `Date.now()/Math.random()` are not modelled; no game logic
  reads them.
-/

/-- `PowerUpType` enum from `PowerUpTypes.ts`. -/
inductive PowerUpType where
  | AMMO_BOOST
  | SPLIT_SHOT
  | SPEED_BOOST
  | MINE_TRAP
  | SHIELD
  | RAPID_FIRE
  | GHOST_MODE
  | MEGA_BULLET
  | TELEPORT_DASH
  | REVERSE_CONTROLS
deriving DecidableEq, Repr

/-- `Vector2D` from `types.ts`. -/
structure Vec2 where
  x : ℚ
  y : ℚ
deriving DecidableEq, Repr

/-- `ActivePowerUpEffect` from `PowerUpTypes.ts`.  The boolean payload flags
(`splitShotActive`, …) are written but never read by the server logic
(every check dispatches on `type`), so only the fields that are read are
modelled: `type`, `expiresAt` and `megaBulletsRemaining`. -/
structure ActivePowerUpEffect where
  type : PowerUpType
  expiresAt : ℤ
  megaBulletsRemaining : Option ℤ
deriving DecidableEq, Repr

/-- `Player` from `types.ts` (the write-only `color` field is omitted). -/
structure Player where
  id : String
  name : String
  position : Vec2
  velocity : Vec2
  rotation : ℚ
  score : ℤ
  ammo : ℤ
  isAlive : Bool
  isThrustActive : Bool
  turnStartTime : ℤ
  lastReloadTime : ℤ
  activePowerUps : List ActivePowerUpEffect
  shieldHits : Option ℤ
  dashCharges : Option ℤ
  minesAvailable : Option ℤ
deriving DecidableEq, Repr

/-- `Bullet` from `types.ts`.  The id string (timestamp + random suffix in the
source) is irrelevant to the game logic and set to the owner id here. -/
structure Bullet where
  id : String
  playerId : String
  position : Vec2
  velocity : Vec2
  spawnTime : ℤ
  isMega : Bool
deriving DecidableEq, Repr

/-- `Block` from `types.ts`: an occupied map grid cell. -/
structure Block where
  gridX : ℤ
  gridY : ℤ
deriving DecidableEq, Repr

-- Constants from `packages/shared/src/constants.ts`.

def MAX_PLAYERS : ℕ := 15
def GAME_WIDTH : ℚ := 1920
def GAME_HEIGHT : ℚ := 1080
def FRICTION : ℚ := 98 / 100
def BULLET_SPEED : ℚ := 8
def AMMO_CLIP_SIZE : ℤ := 3
def TURN_SPEED : ℚ := 2 / 100
def TURN_SPEED_MAX : ℚ := 1 / 10
def TURN_ACCELERATION_TIME : ℚ := 3000
def SHIP_SIZE : ℚ := 26

/-- Square of `SHIP_MAX_RADIUS = sqrt((26*0.6)^2 + (26*0.5)^2)`; the radius
itself is irrational (`sqrt(412.36) ≈ 20.3067`), so the embedding carries its
exact square. -/
def SHIP_MAX_RADIUS_SQ : ℚ := (26 * (6 / 10)) ^ 2 + (26 * (5 / 10)) ^ 2

/-- Square of `COLLISION_DISTANCE = SHIP_MAX_RADIUS * 2`. -/
def COLLISION_DISTANCE_SQ : ℚ := 4 * SHIP_MAX_RADIUS_SQ

def RESTITUTION : ℚ := 6 / 10
def BULLET_RADIUS : ℚ := 3
def AMMO_BOOST_SIZE : ℤ := 8
def AMMO_BOOST_RELOAD_MULTIPLIER : ℚ := 5 / 10
def RAPID_FIRE_RELOAD_MULTIPLIER : ℚ := 33 / 100
def MEGA_BULLET_SPEED_MULTIPLIER : ℚ := 15 / 10
def MEGA_BULLET_COUNT : ℤ := 5
def SPLIT_SHOT_ANGLE : ℚ := 17
def TELEPORT_DASH_CHARGES : ℤ := 3
def SHIELD_MAX_HITS : ℤ := 3
def MINE_TRAP_COUNT : ℤ := 3

/-- Map grid constants (`GRID_WIDTH` 48, `GRID_HEIGHT` 27, `BLOCK_SIZE` 40px,
documented in `packages/map-editor/README.md`; 48*40 = 1920, 27*40 = 1080). -/
def GRID_WIDTH : ℤ := 48

def GRID_HEIGHT : ℤ := 27

def BLOCK_SIZE : ℚ := 40

/-- `POWERUP_CONFIGS[type].duration` from `PowerUpTypes.ts` (milliseconds). -/
def powerUpDuration : PowerUpType → ℤ
  | PowerUpType.AMMO_BOOST => 20000
  | PowerUpType.SPLIT_SHOT => 15000
  | PowerUpType.SPEED_BOOST => 15000
  | PowerUpType.MINE_TRAP => 0
  | PowerUpType.SHIELD => 20000
  | PowerUpType.RAPID_FIRE => 15000
  | PowerUpType.GHOST_MODE => 10000
  | PowerUpType.MEGA_BULLET => 0
  | PowerUpType.TELEPORT_DASH => 0
  | PowerUpType.REVERSE_CONTROLS => 8000

/-- Does the player hold an active effect of the given type?
(`player.activePowerUps.some(e => e.type === t)` in the source). -/
def hasEffect (t : PowerUpType) (p : Player) : Bool :=
  p.activePowerUps.any (fun e => e.type == t)

/-- `PowerUpManager.getMaxAmmo`. -/
def getMaxAmmo (p : Player) : ℤ :=
  if hasEffect PowerUpType.AMMO_BOOST p then AMMO_BOOST_SIZE else 3

/-- `PowerUpManager.getReloadMultiplier`. -/
def getReloadMultiplier (p : Player) : ℚ :=
  if hasEffect PowerUpType.AMMO_BOOST p then AMMO_BOOST_RELOAD_MULTIPLIER
  else if hasEffect PowerUpType.RAPID_FIRE p then RAPID_FIRE_RELOAD_MULTIPLIER
  else 1

/-- `GameManager.updateAmmo`, restricted to one player (the source loops this
body over `players.values()`; `baseReloadTime` is the literal `2000`). -/
def updateAmmoPlayer (now : ℤ) (p : Player) : Player :=
  let maxAmmo := getMaxAmmo p
  if p.ammo < maxAmmo then
    let timeSinceLastReload : ℤ := now - p.lastReloadTime
    let reloadTime : ℚ := 2000 * getReloadMultiplier p
    if reloadTime ≤ (timeSinceLastReload : ℚ) then
      { p with ammo := min (p.ammo + 1) maxAmmo, lastReloadTime := now }
    else p
  else p

/-- JavaScript truthiness of `effect.megaBulletsRemaining === undefined ||
effect.megaBulletsRemaining <= 0`. -/
def megaDepleted : Option ℤ → Bool
  | none => true
  | some n => decide (n ≤ 0)

/-- JavaScript falsiness `!player.shieldHits` (undefined or 0). -/
def shieldFalsy : Option ℤ → Bool
  | none => true
  | some n => decide (n = 0)

/-- The filter predicate of `PowerUpManager.updateActivePowerUps`: keep an
effect unless it has expired, is a depleted mega-bullet effect, or is a
shield effect whose hit counter is gone. -/
def effectKept (now : ℤ) (shieldHits : Option ℤ) (e : ActivePowerUpEffect) : Bool :=
  if e.expiresAt ≤ now then false
  else if e.type == PowerUpType.MEGA_BULLET && megaDepleted e.megaBulletsRemaining then false
  else if e.type == PowerUpType.SHIELD && shieldFalsy shieldHits then false
  else true

/-- `PowerUpManager.updateActivePowerUps`, restricted to one player: the
expiry/depletion sweep followed by the shield-hit cleanup. -/
def updateActivePowerUpsPlayer (now : ℤ) (p : Player) : Player :=
  let p1 := { p with activePowerUps := p.activePowerUps.filter (effectKept now p.shieldHits) }
  if p1.activePowerUps.any (fun e => e.type == PowerUpType.SHIELD) then p1
  else { p1 with shieldHits := none }

/-- `PowerUpManager.applyPowerUpEffect`, restricted to the picking player.
`REVERSE_CONTROLS` pushes an effect onto a *random other* player and leaves
the picker unchanged, which is what the picker-restricted view shows. -/
def applyPowerUpEffect (now : ℤ) (t : PowerUpType) (p : Player) : Player :=
  match t with
  | PowerUpType.AMMO_BOOST =>
      { p with ammo := AMMO_BOOST_SIZE,
               activePowerUps := p.activePowerUps ++
                 [{ type := t, expiresAt := now + powerUpDuration t, megaBulletsRemaining := none }] }
  | PowerUpType.SPLIT_SHOT =>
      { p with activePowerUps := p.activePowerUps ++
                 [{ type := t, expiresAt := now + powerUpDuration t, megaBulletsRemaining := none }] }
  | PowerUpType.SPEED_BOOST =>
      { p with activePowerUps := p.activePowerUps ++
                 [{ type := t, expiresAt := now + powerUpDuration t, megaBulletsRemaining := none }] }
  | PowerUpType.MINE_TRAP =>
      { p with minesAvailable := some (p.minesAvailable.getD 0 + MINE_TRAP_COUNT) }
  | PowerUpType.SHIELD =>
      { p with shieldHits := some SHIELD_MAX_HITS,
               activePowerUps := p.activePowerUps ++
                 [{ type := t, expiresAt := now + powerUpDuration t, megaBulletsRemaining := none }] }
  | PowerUpType.RAPID_FIRE =>
      { p with activePowerUps := p.activePowerUps ++
                 [{ type := t, expiresAt := now + powerUpDuration t, megaBulletsRemaining := none }] }
  | PowerUpType.GHOST_MODE =>
      { p with activePowerUps := p.activePowerUps ++
                 [{ type := t, expiresAt := now + powerUpDuration t, megaBulletsRemaining := none }] }
  | PowerUpType.MEGA_BULLET =>
      { p with activePowerUps := p.activePowerUps ++
                 [{ type := t, expiresAt := now + 999999999, megaBulletsRemaining := some MEGA_BULLET_COUNT }] }
  | PowerUpType.TELEPORT_DASH =>
      { p with dashCharges := some (p.dashCharges.getD 0 + TELEPORT_DASH_CHARGES) }
  | PowerUpType.REVERSE_CONTROLS => p

/-- One player's ammo-relevant slice of `GameManager.update`: the physics pass
does not touch ammo, then `PowerUpManager.update` runs the effect sweep, then
`GameManager.updateAmmo` runs the reload pass. -/
def ammoTickPlayer (now : ℤ) (p : Player) : Player :=
  updateAmmoPlayer now (updateActivePowerUpsPlayer now p)

-- ========================================
-- InputHandler: fire
-- ========================================

/-- `hasSplitShot` check in `InputHandler.handleFire`. -/
def hasSplitShot (p : Player) : Bool := hasEffect PowerUpType.SPLIT_SHOT p

/-- Truthiness of `megaBulletEffect && megaBulletEffect.megaBulletsRemaining &&
megaBulletEffect.megaBulletsRemaining > 0` in `InputHandler.handleFire`
(`find` returns the first matching effect). -/
def hasMegaCharge (p : Player) : Bool :=
  match p.activePowerUps.find? (fun e => e.type == PowerUpType.MEGA_BULLET) with
  | none => false
  | some e =>
      match e.megaBulletsRemaining with
      | none => false
      | some n => decide (0 < n)

/-- `megaBulletEffect.megaBulletsRemaining--` applied to the first
`MEGA_BULLET` effect in the list (the one `find` returned). -/
def decrementFirstMega : List ActivePowerUpEffect → List ActivePowerUpEffect
  | [] => []
  | e :: es =>
      if e.type == PowerUpType.MEGA_BULLET then
        { e with megaBulletsRemaining := (e.megaBulletsRemaining.map (fun n => n - 1)) } :: es
      else e :: decrementFirstMega es

/-- `InputHandler.createBullet`.  `cosF`/`sinF` stand for `Math.cos`/`Math.sin`. -/
def createBullet (cosF sinF : ℚ → ℚ) (now : ℤ) (playerId : String) (p : Player)
    (angle : ℚ) (isMega : Bool) : Bullet :=
  let bulletOffset := SHIP_SIZE * (6 / 10)
  let speed := if isMega then BULLET_SPEED * MEGA_BULLET_SPEED_MULTIPLIER else BULLET_SPEED
  { id := playerId
    playerId := playerId
    position := { x := p.position.x + cosF angle * bulletOffset
                  y := p.position.y + sinF angle * bulletOffset }
    velocity := { x := p.velocity.x + cosF angle * speed
                  y := p.velocity.y + sinF angle * speed }
    spawnTime := now
    isMega := isMega }

/-- `InputHandler.handleFire`: returns the updated player and the bullets
appended to `gameState.bullets`.  `piv` stands for `Math.PI` (used only in
the split-shot angle step `SPLIT_SHOT_ANGLE * Math.PI / 180`). -/
def handleFire (cosF sinF : ℚ → ℚ) (piv : ℚ) (now : ℤ) (p : Player) :
    Player × List Bullet :=
  if p.ammo ≤ 0 then (p, [])
  else
    let split := hasSplitShot p
    let isMega := hasMegaCharge p
    let p1 := { p with ammo := p.ammo - 1 }
    let p2 := if p1.ammo < AMMO_CLIP_SIZE then { p1 with lastReloadTime := now } else p1
    let p3 := if isMega then { p2 with activePowerUps := decrementFirstMega p2.activePowerUps } else p2
    if split then
      let angleStep := SPLIT_SHOT_ANGLE * piv / 180
      (p3, [createBullet cosF sinF now p.id p3 (p3.rotation - angleStep) isMega,
            createBullet cosF sinF now p.id p3 p3.rotation isMega,
            createBullet cosF sinF now p.id p3 (p3.rotation + angleStep) isMega])
    else
      (p3, [createBullet cosF sinF now p.id p3 p3.rotation isMega])

/-- The fire command as dispatched by `InputHandler.handleInput`, which drops
the event when the player is dead (`!player.isAlive`). -/
def handleFireCmd (cosF sinF : ℚ → ℚ) (piv : ℚ) (now : ℤ) (p : Player) :
    Player × List Bullet :=
  if p.isAlive then handleFire cosF sinF piv now p else (p, [])

-- ========================================
-- PhysicsEngine: wall geometry
-- ========================================

/-- Squared Euclidean distance between two points.  The source computes
`Math.sqrt(dx*dx+dy*dy)` and compares it with a nonnegative threshold `R`;
all such comparisons are embedded as `distSq < R*R`. -/
def distSq (a b : Vec2) : ℚ := (a.x - b.x) ^ 2 + (a.y - b.y) ^ 2

/-- `PhysicsEngine.circleRectCollision` (exactly rational in the source: the
squared distance from the circle center to the closest rectangle point is
compared with `radius*radius`). -/
def circleRectCollision (cx cy radius : ℚ) (b : Block) : Bool :=
  let rectX := (b.gridX : ℚ) * BLOCK_SIZE
  let rectY := (b.gridY : ℚ) * BLOCK_SIZE
  let closestX := max rectX (min cx (rectX + BLOCK_SIZE))
  let closestY := max rectY (min cy (rectY + BLOCK_SIZE))
  decide ((cx - closestX) ^ 2 + (cy - closestY) ^ 2 < radius * radius)

/-- The spatial-grid cell range scanned by `collidesWithWalls` /
`getWallCollisionNormal`.  A block is stored in the grid under its own
`(gridX, gridY)` key, so the scan visits exactly the blocks whose cell lies
in this range. -/
def blockInScanRange (x y radius : ℚ) (b : Block) : Bool :=
  let minGridX := max 0 ⌊(x - radius) / BLOCK_SIZE⌋
  let maxGridX := min (GRID_WIDTH - 1) ⌊(x + radius) / BLOCK_SIZE⌋
  let minGridY := max 0 ⌊(y - radius) / BLOCK_SIZE⌋
  let maxGridY := min (GRID_HEIGHT - 1) ⌊(y + radius) / BLOCK_SIZE⌋
  decide (minGridX ≤ b.gridX) && decide (b.gridX ≤ maxGridX) &&
  decide (minGridY ≤ b.gridY) && decide (b.gridY ≤ maxGridY)

/-- `PhysicsEngine.collidesWithWalls`: some block in the scanned grid range
collides with the circle. -/
def collidesWithWalls (blocks : List Block) (x y radius : ℚ) : Bool :=
  blocks.any (fun b => blockInScanRange x y radius b && circleRectCollision x y radius b)

/-- `PhysicsEngine.getWallCollisionNormal`.  The source returns the normalized
vector `(nx, ny) / sqrt(nx^2+ny^2)`; the embedding returns the unnormalized
`(nx, ny)` (the caller normalizes inside `reflectDamp`), and like the source
it skips a colliding block whose contact vector has length zero (circle
center exactly inside the rectangle).  The source scans grid cells row-major;
the embedding scans the block list, which picks the same (unique) result
whenever at most one block yields a contact. -/
def getWallCollisionNormal (blocks : List Block) (cx cy radius : ℚ) : Option Vec2 :=
  blocks.findSome? (fun b =>
    if blockInScanRange cx cy radius b && circleRectCollision cx cy radius b then
      let rectX := (b.gridX : ℚ) * BLOCK_SIZE
      let rectY := (b.gridY : ℚ) * BLOCK_SIZE
      let closestX := max rectX (min cx (rectX + BLOCK_SIZE))
      let closestY := max rectY (min cy (rectY + BLOCK_SIZE))
      let nx := cx - closestX
      let ny := cy - closestY
      if nx = 0 ∧ ny = 0 then none else some { x := nx, y := ny }
    else none)

/-- Wall bounce of `PhysicsEngine.updateShips`: `v' = v - 2(v·n)n` for the
unit normal `n = m / |m|`, followed by the `0.7` bounce damping.  With the
unnormalized contact vector `m` this is `v - (2(v·m)/(m·m))·m`, identical to
the source formula. -/
def reflectDamp (v m : Vec2) : Vec2 :=
  let k := 2 * (v.x * m.x + v.y * m.y) / (m.x * m.x + m.y * m.y)
  { x := (v.x - k * m.x) * (7 / 10), y := (v.y - k * m.y) * (7 / 10) }

/-- Screen wrapping at the end of `PhysicsEngine.updateShips`. -/
def wrapPos (pos : Vec2) : Vec2 :=
  let x := if pos.x < 0 then pos.x + GAME_WIDTH else pos.x
  let x := if x > GAME_WIDTH then x - GAME_WIDTH else x
  let y := if pos.y < 0 then pos.y + GAME_HEIGHT else pos.y
  let y := if y > GAME_HEIGHT then y - GAME_HEIGHT else y
  { x := x, y := y }

/-- The friction-onward fragment of `PhysicsEngine.updateShips` for one ship:
apply friction, compute the tentative position, bounce (keeping the old
position) when a wall-contact normal is found, otherwise commit the tentative
position; finally wrap at the field boundary.  `radius` stands for the
irrational `SHIP_MAX_RADIUS`. -/
def shipMoveStep (blocks : List Block) (radius : ℚ) (pos vel : Vec2) : Vec2 × Vec2 :=
  let vf : Vec2 := { x := vel.x * FRICTION, y := vel.y * FRICTION }
  let newX := pos.x + vf.x
  let newY := pos.y + vf.y
  match getWallCollisionNormal blocks newX newY radius with
  | some m => (wrapPos pos, reflectDamp vf m)
  | none => (wrapPos { x := newX, y := newY }, vf)

-- ========================================
-- PhysicsEngine: rotation
-- ========================================

/-- The turn-speed ramp of `PhysicsEngine.updateShips` (non-thrust branch). -/
def currentTurnSpeed (now turnStartTime : ℤ) : ℚ :=
  let turnProgress := min (((now - turnStartTime : ℤ) : ℚ) / TURN_ACCELERATION_TIME) 1
  TURN_SPEED + (TURN_SPEED_MAX - TURN_SPEED) * turnProgress

/-- The rotation normalization of `PhysicsEngine.updateShips`:
`if (rotation > 2π) rotation -= 2π`.  `twoPi` stands for the irrational
`Math.PI * 2`. -/
def wrapRotation (twoPi r : ℚ) : ℚ := if r > twoPi then r - twoPi else r

/-- One rotation update of `PhysicsEngine.updateShips` (non-thrust branch):
add the ramped turn speed, then normalize. -/
def rotationStep (twoPi : ℚ) (now turnStartTime : ℤ) (r : ℚ) : ℚ :=
  wrapRotation twoPi (r + currentTurnSpeed now turnStartTime)

-- ========================================
-- PhysicsEngine: ship-ship elastic collision
-- ========================================

/-- Relative velocity along the collision normal (`dvn` in
`PhysicsEngine.resolveElasticCollision`). -/
def relVelNormal (p1 p2 : Player) (dx dy distance : ℚ) : ℚ :=
  (p2.velocity.x - p1.velocity.x) * (dx / distance) +
  (p2.velocity.y - p1.velocity.y) * (dy / distance)

/-- `PhysicsEngine.resolveElasticCollision`.  `collisionDistance` stands for
the irrational `COLLISION_DISTANCE`; `dx`, `dy`, `distance` are passed by the
caller exactly as in the source. -/
def resolveElasticCollision (collisionDistance : ℚ) (p1 p2 : Player)
    (dx dy distance : ℚ) : Player × Player :=
  let nx := dx / distance
  let ny := dy / distance
  let dvn := relVelNormal p1 p2 dx dy distance
  if dvn > 0 then (p1, p2)
  else
    let impulse := (-(1 + RESTITUTION) * dvn) / 2
    let q1 := { p1 with velocity := { x := p1.velocity.x - impulse * nx
                                      y := p1.velocity.y - impulse * ny } }
    let q2 := { p2 with velocity := { x := p2.velocity.x + impulse * nx
                                      y := p2.velocity.y + impulse * ny } }
    let overlap := collisionDistance - distance
    let separationX := (overlap / 2) * nx
    let separationY := (overlap / 2) * ny
    ({ q1 with position := { x := q1.position.x - separationX
                             y := q1.position.y - separationY } },
     { q2 with position := { x := q2.position.x + separationX
                             y := q2.position.y + separationY } })

-- ========================================
-- PhysicsEngine: bullet-ship collision
-- ========================================

/-- Truthiness of `player.shieldHits && player.shieldHits > 0`. -/
def shieldActive : Option ℤ → Bool
  | none => false
  | some n => decide (0 < n)

/-- The per-player hit test of the bullet loop in
`PhysicsEngine.checkCollisions`: skip the bullet owner and dead players, then
compare the distance with `SHIP_MAX_RADIUS + BULLET_RADIUS` (embedded
squared; `hitRadius` stands for that irrational sum). -/
def isBulletHit (hitRadius : ℚ) (b : Bullet) (p : Player) : Bool :=
  decide (b.playerId ≠ p.id) && p.isAlive &&
  decide (distSq b.position p.position < hitRadius * hitRadius)

/-- The effect of a registered hit on the player list: shield absorb
(decrement one hit) or kill plus one point for the shooter
(`players.get(bullet.playerId)`). -/
def applyBulletHit (b : Bullet) (t : Player) (players : List Player) : List Player :=
  if shieldActive t.shieldHits then
    players.map (fun q =>
      if q.id = t.id then { q with shieldHits := q.shieldHits.map (fun n => n - 1) } else q)
  else
    players.map (fun q =>
      if q.id = t.id then { q with isAlive := false }
      else if q.id = b.playerId then { q with score := q.score + 1 }
      else q)

/-- One bullet of the bullet-ship loop in `PhysicsEngine.checkCollisions`:
the loop scans players in iteration order and `break`s at the first hit;
the returned flag says whether the bullet was destroyed (spliced out). -/
def processBullet (hitRadius : ℚ) (b : Bullet) (players : List Player) :
    List Player × Bool :=
  match players.find? (isBulletHit hitRadius b) with
  | some t => (applyBulletHit b t players, true)
  | none => (players, false)

-- ========================================
-- GameManager: round/phase state machine
-- ========================================

/-- `GamePhase` from `types.ts`. -/
inductive GamePhase where
  | WAITING
  | PLAYING
  | ENDED
deriving DecidableEq, Repr

/-- The winner record built by `GameManager.endRound`. -/
structure Winner where
  id : String
  name : String
  score : ℤ
deriving DecidableEq, Repr

/-- `PowerUp` from `PowerUpTypes.ts` (ambient pickup on the map). -/
structure PowerUpItem where
  id : String
  type : PowerUpType
  position : Vec2
  spawnTime : ℤ
deriving DecidableEq, Repr

/-- `Mine` from `PowerUpTypes.ts`. -/
structure Mine where
  id : String
  playerId : String
  position : Vec2
  spawnTime : ℤ
deriving DecidableEq, Repr

/-- `PowerUpPickup` from `types.ts` (notification log entry). -/
structure PickupNotice where
  type : PowerUpType
  position : Vec2
  timestamp : ℤ
deriving DecidableEq, Repr

/-- `GameState` from `types.ts`; the player `Map` is a list in insertion
order. -/
structure GameStateM where
  players : List Player
  bullets : List Bullet
  powerUps : List PowerUpItem
  mines : List Mine
  blocks : List Block
  recentPickups : List PickupNotice
  roundEndTime : Option ℤ
  isRoundActive : Bool
  phase : GamePhase
  hostPlayerId : Option String
deriving DecidableEq, Repr

/-- Socket events emitted by `GameManager` (`io.emit`). -/
inductive GameEvent where
  | playerJoined (id name : String)
  | playerLeft (id : String)
  | roundStart (endTime : ℤ)
  | roundEnd (winner : Option Winner)
deriving DecidableEq, Repr

/-- The `GameState` initialized in the `GameManager` constructor. -/
def initialGameState : GameStateM :=
  { players := [], bullets := [], powerUps := [], mines := [], blocks := []
    recentPickups := [], roundEndTime := none, isRoundActive := false
    phase := GamePhase.WAITING, hostPlayerId := none }

/-- The `Player` literal built in `GameManager.addPlayer` (spawn position and
initial rotation are random in the source and passed as parameters here). -/
def mkPlayer (playerId playerName : String) (spawn : Vec2) (rot : ℚ) (now : ℤ) : Player :=
  { id := playerId, name := playerName, position := spawn
    velocity := { x := 0, y := 0 }, rotation := rot, score := 0
    ammo := AMMO_CLIP_SIZE, isAlive := true, isThrustActive := false
    turnStartTime := now, lastReloadTime := now, activePowerUps := []
    shieldHits := none, dashCharges := none, minesAvailable := none }

/-- `GameManager.addPlayer`: capacity gate, insertion, first-joiner host
assignment, `playerJoined` emission. -/
def addPlayer (st : GameStateM) (playerId playerName : String) (spawn : Vec2)
    (rot : ℚ) (now : ℤ) : GameStateM × List GameEvent :=
  if MAX_PLAYERS ≤ st.players.length then (st, [])
  else
    let st1 := { st with players := st.players ++ [mkPlayer playerId playerName spawn rot now] }
    let st2 := if st1.hostPlayerId = none then { st1 with hostPlayerId := some playerId } else st1
    (st2, [GameEvent.playerJoined playerId playerName])

/-- The winner fold of `GameManager.endRound` (`player.score > winner.score`
keeps the earlier player on ties). -/
def winnerStep (w : Option Winner) (p : Player) : Option Winner :=
  match w with
  | none => some { id := p.id, name := p.name, score := p.score }
  | some v => if p.score > v.score then some { id := p.id, name := p.name, score := p.score } else some v

/-- The winner computed by `GameManager.endRound`. -/
def winnerOf (players : List Player) : Option Winner :=
  players.foldl winnerStep none

/-- Modelled from the spec: "winner = max-score player (ties broken by
first-seen order)" — the first player of the list holding the maximal score.
Used only to compare `winnerOf` against the spec's wording. -/
def firstMaxWinner : List Player → Option Winner
  | [] => none
  | p :: l =>
      match firstMaxWinner l with
      | none => some { id := p.id, name := p.name, score := p.score }
      | some w =>
          if w.score > p.score then some w
          else some { id := p.id, name := p.name, score := p.score }

/-- `GameManager.endRound`: freeze the round and report the winner via the
`roundEnd` emission. -/
def endRound (st : GameStateM) : GameStateM × Option Winner :=
  ({ st with isRoundActive := false, phase := GamePhase.ENDED, roundEndTime := none },
   winnerOf st.players)

/-- `GameManager.removePlayer`: drop the player, their bullets and mines;
the host id is left untouched; end the round if the room emptied mid-round. -/
def removePlayer (st : GameStateM) (playerId : String) : GameStateM × List GameEvent :=
  let st1 := { st with players := st.players.filter (fun p => p.id ≠ playerId)
                       bullets := st.bullets.filter (fun b => b.playerId ≠ playerId)
                       mines := st.mines.filter (fun m => m.playerId ≠ playerId) }
  if st1.players.length = 0 ∧ st1.isRoundActive then
    let r := endRound st1
    (r.1, [GameEvent.playerLeft playerId, GameEvent.roundEnd r.2])
  else (st1, [GameEvent.playerLeft playerId])

/-- `GameManager.startRound`: activate the round, load the (random) map,
respawn and reset every player, clear transient entities.  The random spawn
positions/rotations are supplied as oracles keyed by player id. -/
def startRound (st : GameStateM) (now roundDuration : ℤ) (map : List Block)
    (randPos : String → Vec2) (randRot : String → ℚ) : GameStateM :=
  { st with isRoundActive := true
            phase := GamePhase.PLAYING
            roundEndTime := some (now + roundDuration)
            blocks := map
            players := st.players.map (fun p =>
              { p with isAlive := true, position := randPos p.id
                       velocity := { x := 0, y := 0 }, rotation := randRot p.id
                       ammo := AMMO_CLIP_SIZE, isThrustActive := false
                       activePowerUps := [], shieldHits := none
                       dashCharges := none, minesAvailable := none })
            bullets := []
            powerUps := []
            mines := []
            recentPickups := [] }

/-- `GameManager.startGame` (host-only manual start from the lobby). -/
def startGame (st : GameStateM) (playerId : String) (now roundDuration : ℤ)
    (map : List Block) (randPos : String → Vec2) (randRot : String → ℚ) : GameStateM :=
  if st.phase ≠ GamePhase.WAITING then st
  else if st.hostPlayerId ≠ some playerId then st
  else if st.players.length < 1 then st
  else startRound st now roundDuration map randPos randRot

/-- `GameManager.resetGame` (play-again request from any player). -/
def resetGame (st : GameStateM) (now roundDuration : ℤ) (map : List Block)
    (randPos : String → Vec2) (randRot : String → ℚ) : GameStateM :=
  if st.phase ≠ GamePhase.ENDED then st
  else
    let st1 := { st with players := st.players.map (fun p => { p with score := 0 }) }
    startRound st1 now roundDuration map randPos randRot

/-- The round-expiry check at the end of `GameManager.update`
(`if (isRoundActive && roundEndTime) { if (now >= roundEndTime) endRound() }`). -/
def checkRoundExpiry (st : GameStateM) (now : ℤ) : GameStateM × Option (Option Winner) :=
  if st.isRoundActive then
    match st.roundEndTime with
    | some t => if t ≤ now then (let r := endRound st; (r.1, some r.2)) else (st, none)
    | none => (st, none)
  else (st, none)

-- ========================================
-- Concrete scenario fixtures (used by witnesses and counterexamples)
-- ========================================

/-- A freshly joined player (ammo 3, alive, no effects). -/
def freshPlayer : Player := mkPlayer "a" "A" { x := 0, y := 0 } 0 0

/-- Two living ships 10px apart (closer than `COLLISION_DISTANCE ≈ 40.6`)
moving directly away from each other. -/
def shipA : Player :=
  { mkPlayer "a" "A" { x := 0, y := 0 } 0 0 with velocity := { x := -1, y := 0 } }

def shipB : Player :=
  { mkPlayer "b" "B" { x := 10, y := 0 } 0 0 with velocity := { x := 1, y := 0 } }

/-- Two living ships 10px apart moving directly toward each other. -/
def shipC : Player :=
  { mkPlayer "c" "C" { x := 0, y := 0 } 0 0 with velocity := { x := 1, y := 0 } }

def shipD : Player :=
  { mkPlayer "d" "D" { x := 10, y := 0 } 0 0 with velocity := { x := -1, y := 0 } }

/-- Deterministic stand-ins for the random spawn oracles. -/
def zeroPosOracle : String → Vec2 := fun _ => { x := 0, y := 0 }

def zeroRotOracle : String → ℚ := fun _ => 0

/-- Lobby with one player "a" (who is host), still WAITING. -/
def lobbyState : GameStateM :=
  (addPlayer initialGameState "a" "A" { x := 0, y := 0 } 0 0).1

/-- The round started by the host at time 0 with duration 150000. -/
def playingState : GameStateM :=
  startGame lobbyState "a" 0 150000 [] zeroPosOracle zeroRotOracle

/-- The state after the round clock expired. -/
def endedState : GameStateM :=
  (checkRoundExpiry playingState 150000).1

/-- A bullet owned by player "a" at the origin. -/
def bulletX : Bullet :=
  { id := "a", playerId := "a", position := { x := 0, y := 0 }
    velocity := { x := 0, y := 0 }, spawnTime := 0, isMega := false }

/-- The shooter (far away) and a shielded target at the bullet's position. -/
def shooterA : Player := mkPlayer "a" "A" { x := 500, y := 500 } 0 0

def targetB : Player :=
  { mkPlayer "b" "B" { x := 0, y := 0 } 0 0 with shieldHits := some 2 }

/-- An unshielded target at the bullet's position. -/
def targetC : Player := mkPlayer "c" "C" { x := 0, y := 0 } 0 0

/-- A game already holding `MAX_PLAYERS` players. -/
def fullState : GameStateM :=
  { initialGameState with players := List.replicate 15 freshPlayer }

-- ========================================
-- Theorems
-- ========================================

/-- The reload pass does not change the active effect list, hence not the
effect-derived ammo cap. -/
theorem getMaxAmmo_updateAmmoPlayer (now : ℤ) (p : Player) :
    getMaxAmmo (updateAmmoPlayer now p) = getMaxAmmo p := by
  simp only [updateAmmoPlayer]
  split
  · split
    · rfl
    · rfl
  · rfl

/-- The effect sweep does not change a player's ammo count. -/
theorem updateActivePowerUps_ammo (now : ℤ) (p : Player) :
    (updateActivePowerUpsPlayer now p).ammo = p.ammo := by
  simp only [updateActivePowerUpsPlayer]
  split
  · rfl
  · rfl

/-- C1 (amended): over the ammo-relevant tick pipeline (effect sweep, then
reload pass), ammo stays nonnegative, never rises above
`max (previous ammo) (effect-derived max)`, and whenever the player's ammo
already respects the post-sweep cap the end-of-tick ammo respects the cap as
well.  The original claim's unconditional `ammo ≤ effect-derived max` fails
on the first tick after an `AMMO_BOOST` expires (see the counterexample). -/
theorem C1_ammo_tick_bounds (now : ℤ) (p : Player) (h0 : 0 ≤ p.ammo) :
    0 ≤ (ammoTickPlayer now p).ammo ∧
    (ammoTickPlayer now p).ammo ≤ max p.ammo (getMaxAmmo (updateActivePowerUpsPlayer now p)) ∧
    (p.ammo ≤ getMaxAmmo (updateActivePowerUpsPlayer now p) →
      (ammoTickPlayer now p).ammo ≤ getMaxAmmo (ammoTickPlayer now p)) := by
  have hqa : (updateActivePowerUpsPlayer now p).ammo = p.ammo :=
    updateActivePowerUps_ammo now p
  have hmax : getMaxAmmo (ammoTickPlayer now p)
      = getMaxAmmo (updateActivePowerUpsPlayer now p) :=
    getMaxAmmo_updateAmmoPlayer now (updateActivePowerUpsPlayer now p)
  rw [hmax]
  simp only [ammoTickPlayer, updateAmmoPlayer]
  split
  · split
    · rw [hqa] at *
      refine ⟨?_, ?_, ?_⟩ <;> intros <;> simp only [] <;> omega
    · rw [hqa] at *
      refine ⟨?_, ?_, ?_⟩ <;> intros <;> omega
  · rw [hqa] at *
    refine ⟨?_, ?_, ?_⟩ <;> intros <;> omega

/-- Witness for `C1_ammo_tick_bounds` at a fresh player and tick time 0. -/
theorem C1_ammo_tick_bounds_witness :
    0 ≤ freshPlayer.ammo ∧
    (0 ≤ (ammoTickPlayer 0 freshPlayer).ammo ∧
     (ammoTickPlayer 0 freshPlayer).ammo
       ≤ max freshPlayer.ammo (getMaxAmmo (updateActivePowerUpsPlayer 0 freshPlayer)) ∧
     (freshPlayer.ammo ≤ getMaxAmmo (updateActivePowerUpsPlayer 0 freshPlayer) →
       (ammoTickPlayer 0 freshPlayer).ammo ≤ getMaxAmmo (ammoTickPlayer 0 freshPlayer))) :=
  ⟨by decide, C1_ammo_tick_bounds 0 freshPlayer (by decide)⟩

/-- Counterexample to C1 as stated: a player picks up `AMMO_BOOST` at time 0
(ammo set to 8, cap 8).  On the tick at time 20000 the boost expires and is
swept, the cap drops back to 3, but the reload pass never clamps ammo down:
the tick ends with ammo 8 > cap 3. -/
theorem C1_cex :
    (applyPowerUpEffect 0 PowerUpType.AMMO_BOOST freshPlayer).ammo
      ≤ getMaxAmmo (applyPowerUpEffect 0 PowerUpType.AMMO_BOOST freshPlayer) ∧
    (ammoTickPlayer 20000 (applyPowerUpEffect 0 PowerUpType.AMMO_BOOST freshPlayer)).ammo = 8 ∧
    getMaxAmmo (ammoTickPlayer 20000 (applyPowerUpEffect 0 PowerUpType.AMMO_BOOST freshPlayer)) = 3 ∧
    getMaxAmmo (ammoTickPlayer 20000 (applyPowerUpEffect 0 PowerUpType.AMMO_BOOST freshPlayer))
      < (ammoTickPlayer 20000 (applyPowerUpEffect 0 PowerUpType.AMMO_BOOST freshPlayer)).ammo := by
  decide

/-- The sweep's effect list is exactly the `effectKept` filter (the shield-hit
cleanup that follows does not touch the list). -/
theorem updateActivePowerUps_list (now : ℤ) (p : Player) :
    (updateActivePowerUpsPlayer now p).activePowerUps
      = p.activePowerUps.filter (effectKept now p.shieldHits) := by
  simp only [updateActivePowerUpsPlayer]
  split
  · rfl
  · rfl

/-- Unfolding of the `effectKept` boolean. -/
theorem effectKept_eq_true (now : ℤ) (s : Option ℤ) (e : ActivePowerUpEffect) :
    effectKept now s e = true ↔
      now < e.expiresAt ∧
      (e.type = PowerUpType.MEGA_BULLET → megaDepleted e.megaBulletsRemaining = false) ∧
      (e.type = PowerUpType.SHIELD → shieldFalsy s = false) := by
  unfold effectKept
  split_ifs with h1 h2 h3
  · simp only [Bool.false_eq_true, false_iff]
    rintro ⟨hlt, -, -⟩
    omega
  · rw [Bool.and_eq_true, beq_iff_eq] at h2
    simp only [Bool.false_eq_true, false_iff]
    rintro ⟨-, hm, -⟩
    rw [hm h2.1] at h2
    exact absurd h2.2 (by simp)
  · rw [Bool.and_eq_true, beq_iff_eq] at h3
    simp only [Bool.false_eq_true, false_iff]
    rintro ⟨-, -, hs⟩
    rw [hs h3.1] at h3
    exact absurd h3.2 (by simp)
  · simp only [true_iff]
    refine ⟨by omega, ?_, ?_⟩
    · intro ht
      rcases hm : megaDepleted e.megaBulletsRemaining with _ | _
      · rfl
      · exact absurd (by rw [Bool.and_eq_true, beq_iff_eq]; exact ⟨ht, hm⟩) h2
    · intro ht
      rcases hs : shieldFalsy s with _ | _
      · rfl
      · exact absurd (by rw [Bool.and_eq_true, beq_iff_eq]; exact ⟨ht, hs⟩) h3

/-- C4 (amended): the expiry sweep keeps an effect iff its expiry timestamp
has not passed *and* (for mega-bullet) its charge counter is still positive
*and* (for shield) the player's shield-hit counter is still present and
nonzero.  Charge-based effects therefore *do* carry expiry timestamps —
`now + 999999999` for mega-bullet and `now + 20000` for shield — and a shield
effect is dropped after 20 s even while hits remain (see the
counterexample). -/
theorem C4_sweep_kept_iff (now : ℤ) (p : Player) (e : ActivePowerUpEffect) :
    e ∈ (updateActivePowerUpsPlayer now p).activePowerUps ↔
      e ∈ p.activePowerUps ∧ now < e.expiresAt ∧
      (e.type = PowerUpType.MEGA_BULLET → megaDepleted e.megaBulletsRemaining = false) ∧
      (e.type = PowerUpType.SHIELD → shieldFalsy p.shieldHits = false) := by
  rw [updateActivePowerUps_list, List.mem_filter, effectKept_eq_true]

/-- Counterexample to C4 as stated: a shield picked up at time 0 carries
`expiresAt = 20000`.  On the sweep at time 20000 the effect is removed by
pure clock expiry although all 3 shield hits remain, and the cleanup then
clears the hit counter. -/
theorem C4_cex :
    (applyPowerUpEffect 0 PowerUpType.SHIELD freshPlayer).shieldHits = some 3 ∧
    (applyPowerUpEffect 0 PowerUpType.SHIELD freshPlayer).activePowerUps
      = [{ type := PowerUpType.SHIELD, expiresAt := 20000, megaBulletsRemaining := none }] ∧
    (updateActivePowerUpsPlayer 20000 (applyPowerUpEffect 0 PowerUpType.SHIELD freshPlayer)).activePowerUps
      = [] ∧
    (updateActivePowerUpsPlayer 20000 (applyPowerUpEffect 0 PowerUpType.SHIELD freshPlayer)).shieldHits
      = none := by
  decide

/-- C3 (amended): the first player to join an empty-host game becomes host,
but `removePlayer` never touches `hostPlayerId` — when the host disconnects
the id is left pointing at the departed player (it is neither reassigned to a
remaining player nor set back to none). -/
theorem C3_host_assignment :
    (∀ (st : GameStateM) (pid pname : String) (spawn : Vec2) (rot : ℚ) (now : ℤ),
      st.hostPlayerId = none → st.players.length < MAX_PLAYERS →
      (addPlayer st pid pname spawn rot now).1.hostPlayerId = some pid) ∧
    (∀ (st : GameStateM) (pid : String),
      (removePlayer st pid).1.hostPlayerId = st.hostPlayerId) := by
  constructor
  · intro st pid pname spawn rot now hhost hcap
    simp only [addPlayer]
    rw [if_neg (by omega)]
    simp only [hhost]
    rfl
  · intro st pid
    simp only [removePlayer]
    split
    · rfl
    · rfl

/-- Witness for `C3_host_assignment`: "a" joins the empty initial game and
becomes host; removing from the initial (hostless) game leaves the host
field at none. -/
theorem C3_host_assignment_witness :
    initialGameState.hostPlayerId = none ∧
    (addPlayer initialGameState "a" "A" { x := 0, y := 0 } 0 0).1.hostPlayerId = some "a" ∧
    (removePlayer initialGameState "z").1.hostPlayerId = initialGameState.hostPlayerId :=
  ⟨rfl,
   C3_host_assignment.1 initialGameState "a" "A" { x := 0, y := 0 } 0 0 rfl (by decide),
   C3_host_assignment.2 initialGameState "z"⟩

/-- Counterexample to C3 as stated: "p1" joins (becomes host), "p2" joins,
then "p1" — the host — disconnects.  The host id still reads "p1": it is not
reassigned to the remaining connected player "p2" and not set to none. -/
theorem C3_cex :
    (removePlayer (addPlayer (addPlayer initialGameState "p1" "P1" { x := 0, y := 0 } 0 0).1
        "p2" "P2" { x := 50, y := 0 } 0 0).1 "p1").1.players.map Player.id = ["p2"] ∧
    (removePlayer (addPlayer (addPlayer initialGameState "p1" "P1" { x := 0, y := 0 } 0 0).1
        "p2" "P2" { x := 50, y := 0 } 0 0).1 "p1").1.hostPlayerId = some "p1" ∧
    (removePlayer (addPlayer (addPlayer initialGameState "p1" "P1" { x := 0, y := 0 } 0 0).1
        "p2" "P2" { x := 50, y := 0 } 0 0).1 "p1").1.hostPlayerId ≠ some "p2" ∧
    (removePlayer (addPlayer (addPlayer initialGameState "p1" "P1" { x := 0, y := 0 } 0 0).1
        "p2" "P2" { x := 50, y := 0 } 0 0).1 "p1").1.hostPlayerId ≠ none := by
  decide

/-- C2 (amended): for a colliding pair (`dx`,`dy`,`distance` as computed by
`checkCollisions` from the two positions), the resolver always preserves the
sum of the two velocity vectors (momentum for equal masses); when the
relative normal velocity is non-separating (`dvn ≤ 0`) it leaves the pair at
exactly the minimum separation distance (squared distance
`collisionDistance^2`); but when the pair is already separating (`dvn > 0`)
it returns *unchanged* positions, so the pair can end the tick still closer
than the minimum separation distance (see the counterexample). -/
theorem C2_elastic_resolution (cd : ℚ) (p1 p2 : Player) (dx dy dist : ℚ)
    (hd : 0 < dist) (hsq : dist ^ 2 = dx ^ 2 + dy ^ 2)
    (hdx : dx = p2.position.x - p1.position.x)
    (hdy : dy = p2.position.y - p1.position.y) :
    ((resolveElasticCollision cd p1 p2 dx dy dist).1.velocity.x +
       (resolveElasticCollision cd p1 p2 dx dy dist).2.velocity.x
       = p1.velocity.x + p2.velocity.x ∧
     (resolveElasticCollision cd p1 p2 dx dy dist).1.velocity.y +
       (resolveElasticCollision cd p1 p2 dx dy dist).2.velocity.y
       = p1.velocity.y + p2.velocity.y) ∧
    (relVelNormal p1 p2 dx dy dist ≤ 0 →
      distSq (resolveElasticCollision cd p1 p2 dx dy dist).1.position
             (resolveElasticCollision cd p1 p2 dx dy dist).2.position = cd ^ 2) ∧
    (0 < relVelNormal p1 p2 dx dy dist →
      resolveElasticCollision cd p1 p2 dx dy dist = (p1, p2)) := by
  have hne : dist ≠ 0 := ne_of_gt hd
  simp only [resolveElasticCollision]
  split
  case isTrue h =>
    refine ⟨⟨rfl, rfl⟩, ?_, fun _ => rfl⟩
    intro hle
    exact absurd h (not_lt.mpr hle)
  case isFalse h =>
    refine ⟨⟨by ring, by ring⟩, ?_, ?_⟩
    · intro _
      simp only [distSq]
      subst hdx
      subst hdy
      field_simp
      linear_combination (-(4 : ℚ) * cd ^ 2) * hsq
    · intro hpos
      exact absurd hpos h

/-- Witness for `C2_elastic_resolution`: ships C and D 10px apart moving
toward each other (`dvn = -2 ≤ 0`); with separation parameter 41 they end at
squared distance 41². -/
theorem C2_elastic_resolution_witness :
    (0 : ℚ) < 10 ∧ (10 : ℚ) ^ 2 = 10 ^ 2 + 0 ^ 2 ∧
    (((resolveElasticCollision 41 shipC shipD 10 0 10).1.velocity.x +
        (resolveElasticCollision 41 shipC shipD 10 0 10).2.velocity.x
        = shipC.velocity.x + shipD.velocity.x ∧
      (resolveElasticCollision 41 shipC shipD 10 0 10).1.velocity.y +
        (resolveElasticCollision 41 shipC shipD 10 0 10).2.velocity.y
        = shipC.velocity.y + shipD.velocity.y) ∧
     (relVelNormal shipC shipD 10 0 10 ≤ 0 →
       distSq (resolveElasticCollision 41 shipC shipD 10 0 10).1.position
              (resolveElasticCollision 41 shipC shipD 10 0 10).2.position = 41 ^ 2) ∧
     (0 < relVelNormal shipC shipD 10 0 10 →
       resolveElasticCollision 41 shipC shipD 10 0 10 = (shipC, shipD))) :=
  ⟨by norm_num, by norm_num,
   C2_elastic_resolution 41 shipC shipD 10 0 10 (by norm_num) (by norm_num)
     (by norm_num [shipC, shipD, mkPlayer]) (by norm_num [shipC, shipD, mkPlayer])⟩

/-- Counterexample to C2 as stated: ships A and B are 10px apart (well inside
the minimum separation distance, `10^2 < COLLISION_DISTANCE_SQ = 1649.44`),
both alive, neither with ghost mode — yet because they are moving apart
(`dvn = 2 > 0`) the resolver returns them *unchanged* for every value of the
separation constant: the tick ends with the pair still at distance 10. -/
theorem C2_cex :
    (∀ cd : ℚ, resolveElasticCollision cd shipA shipB 10 0 10 = (shipA, shipB)) ∧
    distSq shipA.position shipB.position < COLLISION_DISTANCE_SQ ∧
    hasEffect PowerUpType.GHOST_MODE shipA = false ∧
    hasEffect PowerUpType.GHOST_MODE shipB = false ∧
    shipA.isAlive = true ∧ shipB.isAlive = true := by
  refine ⟨fun cd => ?_,
    by norm_num [distSq, shipA, shipB, mkPlayer, COLLISION_DISTANCE_SQ, SHIP_MAX_RADIUS_SQ],
    by decide, by decide, by decide, by decide⟩
  simp only [resolveElasticCollision]
  rw [if_pos (by norm_num [relVelNormal, shipA, shipB, mkPlayer] :
    relVelNormal shipA shipB 10 0 10 > 0)]

/-- C5 (code-bug evidence): a ship whose tentative center lies *inside* a
wall block.  `collidesWithWalls` reports the collision, but
`getWallCollisionNormal` skips the block because the contact vector has
length zero and returns `none` — contradicting its own doc comment
("Returns null if no collision") — so the integration step *commits* the
tentative position with its velocity unreflected: the ship moves through the
wall.  `r` ranges over rational stand-ins for
`SHIP_MAX_RADIUS = sqrt(412.36) ≈ 20.31 ∈ (20, 21)`; the scan arithmetic is
constant on that interval, so the behavior shown is that of the real
constant.  The state is reachable: `executeDash` teleports 200px with no
wall check (spec §9 calls this an accepted gap). -/
theorem C5_wall_penetration (r : ℚ) (h1 : 20 < r) (h2 : r < 21) :
    collidesWithWalls [{ gridX := 0, gridY := 0 }] 21 20 r = true ∧
    getWallCollisionNormal [{ gridX := 0, gridY := 0 }] 21 20 r = none ∧
    shipMoveStep [{ gridX := 0, gridY := 0 }] r { x := 20, y := 20 } { x := 50/49, y := 0 }
      = ({ x := 21, y := 20 }, { x := 1, y := 0 }) := by
  have f1 : ⌊((21 : ℚ) - r) / BLOCK_SIZE⌋ = 0 := by
    rw [Int.floor_eq_iff]
    constructor
    · rw [le_div_iff₀ (by norm_num [BLOCK_SIZE])]
      push_cast
      linarith
    · rw [div_lt_iff₀ (by norm_num [BLOCK_SIZE])]
      push_cast
      norm_num [BLOCK_SIZE]
      linarith
  have f2 : ⌊((21 : ℚ) + r) / BLOCK_SIZE⌋ = 1 := by
    rw [Int.floor_eq_iff]
    constructor
    · rw [le_div_iff₀ (by norm_num [BLOCK_SIZE])]
      push_cast
      norm_num [BLOCK_SIZE]
      linarith
    · rw [div_lt_iff₀ (by norm_num [BLOCK_SIZE])]
      push_cast
      norm_num [BLOCK_SIZE]
      linarith
  have f3 : ⌊((20 : ℚ) - r) / BLOCK_SIZE⌋ = -1 := by
    rw [Int.floor_eq_iff]
    constructor
    · rw [le_div_iff₀ (by norm_num [BLOCK_SIZE])]
      push_cast
      norm_num [BLOCK_SIZE]
      linarith
    · rw [div_lt_iff₀ (by norm_num [BLOCK_SIZE])]
      push_cast
      norm_num [BLOCK_SIZE]
      linarith
  have f4 : ⌊((20 : ℚ) + r) / BLOCK_SIZE⌋ = 1 := by
    rw [Int.floor_eq_iff]
    constructor
    · rw [le_div_iff₀ (by norm_num [BLOCK_SIZE])]
      push_cast
      norm_num [BLOCK_SIZE]
      linarith
    · rw [div_lt_iff₀ (by norm_num [BLOCK_SIZE])]
      push_cast
      norm_num [BLOCK_SIZE]
      linarith
  have hrange : blockInScanRange 21 20 r { gridX := 0, gridY := 0 } = true := by
    simp only [blockInScanRange, f1, f2, f3, f4]
    norm_num [GRID_WIDTH, GRID_HEIGHT]
  have hclosest : max ((0 : ℚ) * BLOCK_SIZE) (min 21 (0 * BLOCK_SIZE + BLOCK_SIZE)) = 21 := by
    norm_num [BLOCK_SIZE]
  have hclosestY : max ((0 : ℚ) * BLOCK_SIZE) (min 20 (0 * BLOCK_SIZE + BLOCK_SIZE)) = 20 := by
    norm_num [BLOCK_SIZE]
  have hcoll : circleRectCollision 21 20 r { gridX := 0, gridY := 0 } = true := by
    simp only [circleRectCollision, Int.cast_zero, hclosest, hclosestY,
      decide_eq_true_eq]
    nlinarith
  have hnorm : getWallCollisionNormal [{ gridX := 0, gridY := 0 }] 21 20 r = none := by
    simp only [getWallCollisionNormal, List.findSome?_cons, hrange, hcoll,
      Bool.and_self, if_true, Int.cast_zero, hclosest, hclosestY]
    norm_num
  refine ⟨?_, hnorm, ?_⟩
  · simp only [collidesWithWalls, List.any_cons, List.any_nil, hrange, hcoll,
      Bool.and_self, Bool.or_false]
  · have hvf : ((50 : ℚ) / 49) * FRICTION = 1 := by norm_num [FRICTION]
    have htent : (20 : ℚ) + 50 / 49 * FRICTION = 21 := by norm_num [FRICTION]
    simp only [shipMoveStep, hvf, htent]
    norm_num [hnorm, wrapPos, GAME_WIDTH, GAME_HEIGHT]

/-- Witness for `C5_wall_penetration` at the concrete radius 20.5. -/
theorem C5_wall_penetration_witness :
    (20 : ℚ) < 41 / 2 ∧ (41 : ℚ) / 2 < 21 ∧
    (collidesWithWalls [{ gridX := 0, gridY := 0 }] 21 20 (41 / 2) = true ∧
     getWallCollisionNormal [{ gridX := 0, gridY := 0 }] 21 20 (41 / 2) = none ∧
     shipMoveStep [{ gridX := 0, gridY := 0 }] (41 / 2) { x := 20, y := 20 } { x := 50/49, y := 0 }
       = ({ x := 21, y := 20 }, { x := 1, y := 0 })) :=
  ⟨by norm_num, by norm_num,
   C5_wall_penetration (41 / 2) (by norm_num) (by norm_num)⟩

/-- The ramped turn speed stays within `[TURN_SPEED, TURN_SPEED_MAX]` as long
as the clock did not run backwards past `turnStartTime`. -/
theorem currentTurnSpeed_bounds (now ts : ℤ) (h : ts ≤ now) :
    TURN_SPEED ≤ currentTurnSpeed now ts ∧ currentTurnSpeed now ts ≤ TURN_SPEED_MAX := by
  unfold currentTurnSpeed TURN_SPEED TURN_SPEED_MAX TURN_ACCELERATION_TIME
  have h0 : (0 : ℚ) ≤ ((now - ts : ℤ) : ℚ) := by
    have : (0 : ℤ) ≤ now - ts := by omega
    exact_mod_cast this
  have hp0 : (0 : ℚ) ≤ min (((now - ts : ℤ) : ℚ) / 3000) 1 :=
    le_min (by positivity) (by norm_num)
  have hp1 : min (((now - ts : ℤ) : ℚ) / 3000) 1 ≤ 1 := min_le_right _ _
  constructor <;> nlinarith [hp0, hp1]

/-- C9 (amended): after the rotation update the angle lies in the *closed*
interval `[0, twoPi]` (for any positive stand-in `twoPi` of `2π` at least as
large as the maximal turn step).  The source normalizes only when the new
rotation is *strictly* greater than `2π` (and its own comment says
"Normalize rotation to [0, 2π]"), so the spec's half-open `[0, 2π)` fails
exactly at the wrap boundary — see the counterexample, where the rotation
ends the tick at exactly `twoPi`. -/
theorem C9_rotation_bounds (twoPi : ℚ) (now ts : ℤ) (r : ℚ)
    (hpi : TURN_SPEED_MAX ≤ twoPi) (hts : ts ≤ now) (h0 : 0 ≤ r) (h1 : r ≤ twoPi) :
    0 ≤ rotationStep twoPi now ts r ∧ rotationStep twoPi now ts r ≤ twoPi := by
  obtain ⟨ha, hb⟩ := currentTurnSpeed_bounds now ts hts
  have hTSpos : (0 : ℚ) < TURN_SPEED := by norm_num [TURN_SPEED]
  have hMax : TURN_SPEED_MAX = 1 / 10 := rfl
  unfold rotationStep wrapRotation
  split
  case isTrue h =>
    constructor
    · linarith
    · linarith
  case isFalse h =>
    constructor
    · linarith
    · linarith

/-- Witness for `C9_rotation_bounds` with `twoPi := 7`, a fresh rotation
timer and rotation 0. -/
theorem C9_rotation_bounds_witness :
    TURN_SPEED_MAX ≤ (7 : ℚ) ∧ (0 : ℤ) ≤ 0 ∧ (0 : ℚ) ≤ 0 ∧ (0 : ℚ) ≤ 7 ∧
    (0 ≤ rotationStep 7 0 0 0 ∧ rotationStep 7 0 0 0 ≤ 7) :=
  ⟨by norm_num [TURN_SPEED_MAX], le_refl 0, le_refl 0, by norm_num,
   C9_rotation_bounds 7 0 0 0 (by norm_num [TURN_SPEED_MAX]) (le_refl 0)
     (le_refl 0) (by norm_num)⟩

/-- Counterexample to C9 as stated: with the turn timer just started the turn
step is exactly `TURN_SPEED = 0.02`.  Starting from rotation
`twoPi - 0.02` the update lands exactly on `twoPi`; the source's strict
`if (rotation > 2π)` does not fire, so the rotation ends the tick at `twoPi`,
outside the claimed half-open interval `[0, 2π)`.  (The computation is
independent of the numeric value of the `2π` stand-in, here `6.28`.) -/
theorem C9_cex :
    rotationStep (628 / 100) 0 0 (628 / 100 - 2 / 100) = 628 / 100 ∧
    ¬ rotationStep (628 / 100) 0 0 (628 / 100 - 2 / 100) < 628 / 100 := by
  have hstep : currentTurnSpeed 0 0 = 2 / 100 := by
    norm_num [currentTurnSpeed, TURN_SPEED, TURN_SPEED_MAX, TURN_ACCELERATION_TIME]
  constructor
  · norm_num [rotationStep, wrapRotation, hstep]
  · norm_num [rotationStep, wrapRotation, hstep]

/-- `firstMaxWinner` is `none` only on the empty list. -/
theorem firstMaxWinner_eq_none (l : List Player) :
    firstMaxWinner l = none ↔ l = [] := by
  cases l with
  | nil => simp [firstMaxWinner]
  | cons p l =>
    simp only [firstMaxWinner]
    constructor
    · intro h
      rcases hfm : firstMaxWinner l with _ | w <;> rw [hfm] at h
      · cases h
      · by_cases hc : w.score > p.score <;> simp [hc] at h
    · intro h
      cases h

/-- The `endRound` fold seeded with `v` computes the better of `v` and the
first maximum of the rest (earlier entries win ties). -/
theorem winnerOf_fold_aux (l : List Player) (v : Winner) :
    l.foldl winnerStep (some v) =
      some (match firstMaxWinner l with
            | none => v
            | some w => if w.score > v.score then w else v) := by
  induction l generalizing v with
  | nil => rfl
  | cons p l ih =>
    have hstep : winnerStep (some v) p
        = some (if p.score > v.score then { id := p.id, name := p.name, score := p.score } else v) := by
      simp only [winnerStep]
      split
      · rfl
      · rfl
    rw [List.foldl_cons, hstep, ih]
    simp only [firstMaxWinner]
    rcases hfm : firstMaxWinner l with _ | w
    · by_cases hpv : p.score > v.score <;> simp [hpv]
    · by_cases hpv : p.score > v.score <;> by_cases hwp : w.score > p.score <;>
        by_cases hwv : w.score > v.score <;> simp [hpv, hwp, hwv] <;> omega
  
/-- Unfolding `firstMaxWinner` on a cons whose tail has no winner. -/
theorem firstMaxWinner_cons_none (p : Player) (l : List Player)
    (h : firstMaxWinner l = none) :
    firstMaxWinner (p :: l) = some { id := p.id, name := p.name, score := p.score } := by
  simp only [firstMaxWinner, h]

/-- Unfolding `firstMaxWinner` on a cons whose tail has winner `w2`. -/
theorem firstMaxWinner_cons_some (p : Player) (l : List Player) (w2 : Winner)
    (h : firstMaxWinner l = some w2) :
    firstMaxWinner (p :: l) =
      (if w2.score > p.score then some w2
       else some { id := p.id, name := p.name, score := p.score }) := by
  simp only [firstMaxWinner, h]

/-- The winner computed by `GameManager.endRound`'s fold is exactly the
first-seen maximum-score player. -/
theorem winnerOf_eq_firstMaxWinner (l : List Player) :
    winnerOf l = firstMaxWinner l := by
  cases l with
  | nil => rfl
  | cons p l =>
    unfold winnerOf
    rw [List.foldl_cons]
    show List.foldl winnerStep (some { id := p.id, name := p.name, score := p.score }) l
        = firstMaxWinner (p :: l)
    rw [winnerOf_fold_aux]
    rcases hfm : firstMaxWinner l with _ | w
    · rw [firstMaxWinner_cons_none p l hfm]
    · rw [firstMaxWinner_cons_some p l w hfm]
      by_cases hw : w.score > p.score <;> simp [hw]

/-- The first-seen maximum really holds the maximal score. -/
theorem firstMaxWinner_is_max (l : List Player) :
    ∀ w, firstMaxWinner l = some w → ∀ q ∈ l, q.score ≤ w.score := by
  induction l with
  | nil => intro w h; cases h
  | cons p l ih =>
    intro w h q hq
    rcases hfm : firstMaxWinner l with _ | w2
    · rw [firstMaxWinner_cons_none p l hfm] at h
      have hl : l = [] := (firstMaxWinner_eq_none l).mp hfm
      subst hl
      rcases List.mem_cons.mp hq with rfl | hq2
      · cases h
        exact le_refl _
      · cases hq2
    · rw [firstMaxWinner_cons_some p l w2 hfm] at h
      by_cases hc : w2.score > p.score
      · rw [if_pos hc] at h
        cases h
        rcases List.mem_cons.mp hq with rfl | hq2
        · omega
        · exact ih _ hfm q hq2
      · rw [if_neg hc] at h
        cases h
        rcases List.mem_cons.mp hq with rfl | hq2
        · exact le_refl _
        · have := ih _ hfm q hq2
          show q.score ≤ p.score
          omega

/-- The first-seen maximum is *first*: every earlier player has a strictly
smaller score. -/
theorem firstMaxWinner_is_first (l : List Player) :
    ∀ w, firstMaxWinner l = some w →
      ∃ l1 p l2, l = l1 ++ p :: l2 ∧
        w = { id := p.id, name := p.name, score := p.score } ∧
        ∀ q ∈ l1, q.score < w.score := by
  induction l with
  | nil => intro w h; cases h
  | cons p l ih =>
    intro w h
    rcases hfm : firstMaxWinner l with _ | w2
    · rw [firstMaxWinner_cons_none p l hfm] at h
      cases h
      exact ⟨[], p, l, rfl, rfl, by intro q hq; cases hq⟩
    · rw [firstMaxWinner_cons_some p l w2 hfm] at h
      by_cases hc : w2.score > p.score
      · rw [if_pos hc] at h
        cases h
        obtain ⟨l1, q0, l2, heq, hw, hlt⟩ := ih _ hfm
        refine ⟨p :: l1, q0, l2, by rw [heq, List.cons_append], hw, ?_⟩
        intro q hq
        rcases List.mem_cons.mp hq with rfl | hq2
        · omega
        · exact hlt q hq2
      · rw [if_neg hc] at h
        cases h
        exact ⟨[], p, l, rfl, rfl, by intro q hq; cases hq⟩

/-- C6: the round phase state machine.  (1) From WAITING, a start request by
the host with at least one connected player moves to PLAYING with
`roundEndTime = now + roundDuration`.  (2) From an active round whose clock
expired, the expiry check moves to ENDED and reports the winner, which is
the maximum-score player with ties broken by first-seen (insertion) order.
(3) From ENDED, a reset request moves to PLAYING with every score reset
to 0.  (4)-(7) A start request outside WAITING, by a non-host, or with no
players, and a reset request outside ENDED, leave the state unchanged. -/
theorem C6_phase_machine (st : GameStateM) (pid : String) (now dur t : ℤ)
    (map : List Block) (randPos : String → Vec2) (randRot : String → ℚ) :
    (st.phase = GamePhase.WAITING → st.hostPlayerId = some pid → 1 ≤ st.players.length →
      (startGame st pid now dur map randPos randRot).phase = GamePhase.PLAYING ∧
      (startGame st pid now dur map randPos randRot).roundEndTime = some (now + dur)) ∧
    (st.isRoundActive = true → st.roundEndTime = some t → t ≤ now →
      (checkRoundExpiry st now).1.phase = GamePhase.ENDED ∧
      (checkRoundExpiry st now).2 = some (winnerOf st.players) ∧
      winnerOf st.players = firstMaxWinner st.players ∧
      (∀ w, winnerOf st.players = some w → ∀ q ∈ st.players, q.score ≤ w.score) ∧
      (∀ w, winnerOf st.players = some w →
        ∃ l1 p l2, st.players = l1 ++ p :: l2 ∧
          w = { id := p.id, name := p.name, score := p.score } ∧
          ∀ q ∈ l1, q.score < w.score)) ∧
    (st.phase = GamePhase.ENDED →
      (resetGame st now dur map randPos randRot).phase = GamePhase.PLAYING ∧
      ∀ q ∈ (resetGame st now dur map randPos randRot).players, q.score = 0) ∧
    (st.phase ≠ GamePhase.WAITING → startGame st pid now dur map randPos randRot = st) ∧
    (st.hostPlayerId ≠ some pid → startGame st pid now dur map randPos randRot = st) ∧
    (st.players.length < 1 → startGame st pid now dur map randPos randRot = st) ∧
    (st.phase ≠ GamePhase.ENDED → resetGame st now dur map randPos randRot = st) := by
  refine ⟨?_, ?_, ?_, ?_, ?_, ?_, ?_⟩
  · intro hph hhost hlen
    simp only [startGame]
    split_ifs with hA hB hC
    · exact absurd hph hA
    · exact absurd hhost hB
    · omega
    · exact ⟨rfl, rfl⟩
  · intro hact hret hle
    simp only [checkRoundExpiry, hact, hret, if_pos hle]
    refine ⟨rfl, rfl, winnerOf_eq_firstMaxWinner st.players, ?_, ?_⟩
    · intro w hw
      rw [winnerOf_eq_firstMaxWinner] at hw
      exact firstMaxWinner_is_max st.players w hw
    · intro w hw
      rw [winnerOf_eq_firstMaxWinner] at hw
      exact firstMaxWinner_is_first st.players w hw
  · intro hph
    simp only [resetGame]
    rw [if_neg (fun hcon => hcon hph)]
    refine ⟨rfl, ?_⟩
    intro q hq
    simp only [startRound, List.mem_map] at hq
    obtain ⟨q1, ⟨q0, hq0, rfl⟩, rfl⟩ := hq
    rfl
  · intro hph
    simp only [startGame]
    rw [if_pos hph]
  · intro hhost
    simp only [startGame]
    split_ifs <;> rfl
  · intro hlen
    simp only [startGame]
    split_ifs <;> rfl
  · intro hph
    simp only [resetGame]
    rw [if_pos hph]

/-- Witness for `C6_phase_machine` on a concrete run: "a" joins (lobby,
host "a"), the host starts the round at time 0 with duration 150000, the
clock expires at 150000, and a reset restarts the round; a start request
from the PLAYING phase and a reset request from the WAITING phase are
no-ops. -/
theorem C6_phase_machine_witness :
    lobbyState.phase = GamePhase.WAITING ∧
    lobbyState.hostPlayerId = some "a" ∧
    1 ≤ lobbyState.players.length ∧
    (startGame lobbyState "a" 0 150000 [] zeroPosOracle zeroRotOracle).phase
      = GamePhase.PLAYING ∧
    (startGame lobbyState "a" 0 150000 [] zeroPosOracle zeroRotOracle).roundEndTime
      = some (0 + 150000) ∧
    (checkRoundExpiry playingState 150000).1.phase = GamePhase.ENDED ∧
    (resetGame endedState 1 2 [] zeroPosOracle zeroRotOracle).phase = GamePhase.PLAYING ∧
    startGame playingState "a" 0 150000 [] zeroPosOracle zeroRotOracle = playingState ∧
    resetGame lobbyState 0 1 [] zeroPosOracle zeroRotOracle = lobbyState := by
  refine ⟨by decide, by decide, by decide, ?_, ?_, ?_, ?_, ?_, ?_⟩
  · exact ((C6_phase_machine lobbyState "a" 0 150000 0 [] zeroPosOracle
      zeroRotOracle).1 (by decide) (by decide) (by decide)).1
  · exact ((C6_phase_machine lobbyState "a" 0 150000 0 [] zeroPosOracle
      zeroRotOracle).1 (by decide) (by decide) (by decide)).2
  · exact ((C6_phase_machine playingState "a" 150000 0 150000 [] zeroPosOracle
      zeroRotOracle).2.1 (by decide) (by decide) (by decide)).1
  · exact ((C6_phase_machine endedState "a" 1 2 0 [] zeroPosOracle
      zeroRotOracle).2.2.1 (by decide)).1
  · exact (C6_phase_machine playingState "a" 0 150000 0 [] zeroPosOracle
      zeroRotOracle).2.2.2.1 (by decide)
  · exact (C6_phase_machine lobbyState "a" 0 1 0 [] zeroPosOracle
      zeroRotOracle).2.2.2.2.2.2 (by decide)

/-- C7: fire semantics for a living player.  With ammo 0 the command is a
no-op (no bullet, player unchanged).  Otherwise exactly one ammo unit is
consumed; without split-shot exactly one bullet is emitted whose velocity is
the player's velocity plus a speed vector aligned with the player's heading
(speed `BULLET_SPEED`, scaled by `MEGA_BULLET_SPEED_MULTIPLIER` while a
mega-bullet charge remains); with split-shot 3 bullets are emitted for the
same single unit of ammo. -/
theorem C7_fire_semantics (cosF sinF : ℚ → ℚ) (piv : ℚ) (now : ℤ) (p : Player)
    (halive : p.isAlive = true) :
    (p.ammo = 0 → handleFireCmd cosF sinF piv now p = (p, [])) ∧
    (0 < p.ammo →
      (handleFireCmd cosF sinF piv now p).1.ammo = p.ammo - 1 ∧
      (hasSplitShot p = false →
        ∃ b, (handleFireCmd cosF sinF piv now p).2 = [b] ∧
          b.playerId = p.id ∧
          b.velocity.x = p.velocity.x + cosF p.rotation *
            (if hasMegaCharge p then BULLET_SPEED * MEGA_BULLET_SPEED_MULTIPLIER
             else BULLET_SPEED) ∧
          b.velocity.y = p.velocity.y + sinF p.rotation *
            (if hasMegaCharge p then BULLET_SPEED * MEGA_BULLET_SPEED_MULTIPLIER
             else BULLET_SPEED)) ∧
      (hasSplitShot p = true → (handleFireCmd cosF sinF piv now p).2.length = 3)) := by
  constructor
  · intro h0
    simp only [handleFireCmd, halive, if_true, handleFire]
    rw [if_pos (by omega : p.ammo ≤ 0)]
  · intro hpos
    have hneg : ¬ p.ammo ≤ 0 := by omega
    simp only [handleFireCmd, halive, if_true, handleFire, hneg, if_false]
    refine ⟨?_, ?_, ?_⟩
    · split_ifs <;> rfl
    · intro hsplit
      simp only [hsplit, Bool.false_eq_true, if_false]
      refine ⟨_, rfl, rfl, ?_, ?_⟩
      · split_ifs <;> simp_all [createBullet]
      · split_ifs <;> simp_all [createBullet]
    · intro hsplit
      simp only [hsplit, if_true]
      rfl

/-- Witness for `C7_fire_semantics`: a fresh living player (ammo 3) fires and
ends with ammo 2. -/
theorem C7_fire_semantics_witness :
    freshPlayer.isAlive = true ∧ 0 < freshPlayer.ammo ∧
    (handleFireCmd (fun _ => 1) (fun _ => 0) 3 5 freshPlayer).1.ammo
      = freshPlayer.ammo - 1 :=
  ⟨by decide, by decide,
   ((C7_fire_semantics (fun _ => 1) (fun _ => 0) 3 5 freshPlayer (by decide)).2
     (by decide)).1⟩

/-- C8: bullet-ship resolution for one bullet.  If no living non-owner player
is in range the bullet survives and nothing changes.  If the scan finds a
target, the target is never the owner and never a dead player, and the
bullet is destroyed; a target holding shield charges loses exactly one
charge and stays alive (every other player is untouched); an unshielded
target is marked dead, every entry of the shooter gains exactly one point,
and every other player is untouched. -/
theorem C8_bullet_resolution (hitR : ℚ) (b : Bullet) (players : List Player) :
    (players.find? (isBulletHit hitR b) = none →
      processBullet hitR b players = (players, false)) ∧
    (∀ t, players.find? (isBulletHit hitR b) = some t →
      t ∈ players ∧ b.playerId ≠ t.id ∧ t.isAlive = true ∧
      (processBullet hitR b players).2 = true ∧
      (∀ n, t.shieldHits = some n → 0 < n →
        { t with shieldHits := some (n - 1) } ∈ (processBullet hitR b players).1 ∧
        ∀ q ∈ players, q.id ≠ t.id → q ∈ (processBullet hitR b players).1) ∧
      (shieldActive t.shieldHits = false →
        { t with isAlive := false } ∈ (processBullet hitR b players).1 ∧
        (∀ s ∈ players, s.id = b.playerId →
          { s with score := s.score + 1 } ∈ (processBullet hitR b players).1) ∧
        ∀ q ∈ players, q.id ≠ t.id → q.id ≠ b.playerId →
          q ∈ (processBullet hitR b players).1)) := by
  constructor
  · intro h
    simp only [processBullet, h]
  · intro t ht
    have hmem : t ∈ players := List.mem_of_find?_eq_some ht
    have hpred : isBulletHit hitR b t = true := List.find?_some ht
    have hne : b.playerId ≠ t.id := by
      simp only [isBulletHit, Bool.and_eq_true, decide_eq_true_eq] at hpred
      exact hpred.1.1
    have halive : t.isAlive = true := by
      simp only [isBulletHit, Bool.and_eq_true, decide_eq_true_eq] at hpred
      exact hpred.1.2
    refine ⟨hmem, hne, halive, by simp only [processBullet, ht], ?_, ?_⟩
    · intro n hn hnpos
      have hact : shieldActive t.shieldHits = true := by
        rw [hn]
        simp only [shieldActive, decide_eq_true_eq]
        exact hnpos
      simp only [processBullet, ht, applyBulletHit, hact, if_true]
      constructor
      · have : ({ t with shieldHits := some (n - 1) } : Player)
            = (fun q => if q.id = t.id then
                { q with shieldHits := q.shieldHits.map (fun m => m - 1) } else q) t := by
          simp [hn]
        rw [this]
        exact List.mem_map_of_mem _ hmem
      · intro q hq hqne
        have : q = (fun q => if q.id = t.id then
            { q with shieldHits := q.shieldHits.map (fun m => m - 1) } else q) q := by
          simp only [if_neg hqne]
        rw [this]
        exact List.mem_map_of_mem _ hq
    · intro hact
      simp only [processBullet, ht, applyBulletHit, hact, Bool.false_eq_true, if_false]
      refine ⟨?_, ?_, ?_⟩
      · have : ({ t with isAlive := false } : Player)
            = (fun q => if q.id = t.id then { q with isAlive := false }
                else if q.id = b.playerId then { q with score := q.score + 1 } else q) t := by
          simp
        rw [this]
        exact List.mem_map_of_mem _ hmem
      · intro s hs hsid
        have hsne : s.id ≠ t.id := by
          rw [hsid]
          exact hne
        have : ({ s with score := s.score + 1 } : Player)
            = (fun q => if q.id = t.id then { q with isAlive := false }
                else if q.id = b.playerId then { q with score := q.score + 1 } else q) s := by
          simp only [if_neg hsne, if_pos hsid]
        rw [this]
        exact List.mem_map_of_mem _ hs
      · intro q hq hqt hqb
        have : q = (fun q => if q.id = t.id then { q with isAlive := false }
            else if q.id = b.playerId then { q with score := q.score + 1 } else q) q := by
          simp only [if_neg hqt, if_neg hqb]
        rw [this]
        exact List.mem_map_of_mem _ hq

/-- Witness for `C8_bullet_resolution`: bullet of "a" against shooter "a"
(skipped as owner) and shielded target "b" at the bullet's position; the
target loses exactly one of its 2 shield hits.  (24 is a rational stand-in
for the irrational hit radius `SHIP_MAX_RADIUS + BULLET_RADIUS ≈ 23.31`;
the hit here is at distance 0, in range for any positive radius.) -/
theorem C8_bullet_resolution_witness :
    List.find? (isBulletHit 24 bulletX) [shooterA, targetB] = some targetB ∧
    { targetB with shieldHits := some (2 - 1) }
      ∈ (processBullet 24 bulletX [shooterA, targetB]).1 := by
  have hfind : List.find? (isBulletHit 24 bulletX) [shooterA, targetB] = some targetB := by
    norm_num [List.find?, isBulletHit, distSq, bulletX, targetB, shooterA, mkPlayer]
    rfl
  exact ⟨hfind,
    (((C8_bullet_resolution 24 bulletX [shooterA, targetB]).2 targetB hfind).2.2.2.2.1
      2 rfl (by norm_num)).1⟩

/-- C10: `GameManager.addPlayer` at or above the `MAX_PLAYERS = 15` cap is a
silent no-op: the returned state is the input state unchanged (no player
added, host id unchanged) and no `playerJoined` event is emitted. -/
theorem C10_capacity_noop (st : GameStateM) (pid pname : String) (spawn : Vec2)
    (rot : ℚ) (now : ℤ) (h : MAX_PLAYERS ≤ st.players.length) :
    addPlayer st pid pname spawn rot now = (st, []) := by
  simp only [addPlayer, if_pos h]

/-- Witness for `C10_capacity_noop` on a game already holding 15 players. -/
theorem C10_capacity_noop_witness :
    MAX_PLAYERS ≤ fullState.players.length ∧
    addPlayer fullState "p16" "P16" { x := 0, y := 0 } 0 0 = (fullState, []) :=
  ⟨by decide, C10_capacity_noop fullState "p16" "P16" { x := 0, y := 0 } 0 0 (by decide)⟩
